import Mathlib

/-!
Verification development for the remote-work frontend orchestrator.

The definitions below are a shallow embedding of the session and activity
logic in src/src/main.ts and of the periodic network poller in
src/src/network-usage.ts. The UI-bound mutable state (button visibility
and enabled flags, activity badge color, status text) is gathered into a
record, and every event-listener callback and async command handler of
main.ts becomes a function on that record. The two async command handlers
startCombinedRecording and stopCombinedRecording are each split at their
await point into an issue step (the mutations before the backend call)
and a resolve step (the continuation, parameterized by the backend
outcome), so that interleavings with other events can be stated. A click
on a button dispatches its handler only when the button is displayed and
not disabled, following DOM event-dispatch semantics; element-existence
guards in the handlers hold in the initialized main app and are modelled
as true.
-/

/-- Badge colors used by main.ts. The unstyled constructor stands for the
CSS default before any handler paints the badge. Red marks stopped, blue
recording, yellow paused or idle, green active. -/
inductive Color where
  | unstyled
  | red
  | blue
  | yellow
  | green
  deriving DecidableEq

/-- The UI-bound state mutated by the handlers in main.ts: the record and
stop buttons (display and disabled flags), the activity badge color, the
screenshot-status text, and the number of in-flight backend start and
stop calls (the await continuations not yet resolved). The source keeps
no explicit mode; the control configuration is the state. -/
structure St where
  recordShown : Bool
  recordDisabled : Bool
  stopShown : Bool
  stopDisabled : Bool
  badge : Color
  statusText : String
  startsInFlight : Nat
  stopsInFlight : Nat
  deriving DecidableEq

/-- Embeds updateIdleUI from src/src/main.ts lines 532 to 543: exactly
the string active paints the badge green; every other status string
paints it yellow. Only the badge is touched. -/
def updateIdleUI (status : String) (s : St) : St :=
  if status = "active" then { s with badge := Color.green }
  else { s with badge := Color.yellow }

/-- Events of the orchestrator: user button clicks, resolutions of the
two in-flight backend commands (split at the await point, outcome is the
backend result or the thrown error), the backend event listeners of
main.ts, the pushed system-idle-status event, and the periodic
cached-status poll resolution. -/
inductive Ev where
  | clickStart
  | clickStop
  | resolveStart (outcome : Except String String)
  | resolveStop (outcome : Except String String)
  | recPaused (p : String)
  | recResumed (p : String)
  | recError (p : String)
  | recFinished (p : String)
  | allStopped (p : String)
  | sysIdle (status : String)
  | pollResult (outcome : Except String String)

/-- One step of the orchestrator. Each arm is translated from the
corresponding handler in src/src/main.ts:
clickStart and resolveStart from startCombinedRecording (lines 223-256),
split at the await of start_combined_recording; the error arm covers a
throw from either awaited call, in which case the badge is not painted
blue because the badge assignment follows both awaits.
clickStop and resolveStop from stopCombinedRecording (lines 258-290);
the finally block is inlined into both resolve arms, and on a throw the
badge is left unchanged because the red assignment sits inside the try.
recPaused, recResumed, recError, recFinished, allStopped from the listen
callbacks at lines 360-416; sysIdle from the system-idle-status listener
(lines 554-563) which forwards only the status string to updateIdleUI;
pollResult from updateCachedIdleStatus (lines 522-529), whose catch arm
only logs, retaining the previous state. -/
def step (s : St) (e : Ev) : St :=
  match e with
  | .clickStart =>
      if s.recordShown && !s.recordDisabled then
        { s with recordDisabled := true,
                 statusText := "Remote Worker: Starting...",
                 startsInFlight := s.startsInFlight + 1 }
      else s
  | .resolveStart outcome =>
      if s.startsInFlight > 0 then
        match outcome with
        | .ok r =>
            { s with statusText := r, badge := Color.blue,
                     recordShown := false,
                     stopShown := true, stopDisabled := false,
                     startsInFlight := s.startsInFlight - 1 }
        | .error msg =>
            { s with statusText := "Error: " ++ msg,
                     recordDisabled := false, recordShown := true,
                     stopShown := false,
                     startsInFlight := s.startsInFlight - 1 }
      else s
  | .clickStop =>
      if s.stopShown && !s.stopDisabled then
        { s with stopDisabled := true,
                 statusText := "Stopping recording...",
                 stopsInFlight := s.stopsInFlight + 1 }
      else s
  | .resolveStop outcome =>
      if s.stopsInFlight > 0 then
        match outcome with
        | .ok r =>
            { s with statusText := r, badge := Color.red,
                     recordShown := true, recordDisabled := false,
                     stopShown := false, stopDisabled := false,
                     stopsInFlight := s.stopsInFlight - 1 }
        | .error msg =>
            { s with statusText := "Error: " ++ msg,
                     recordShown := true, recordDisabled := false,
                     stopShown := false, stopDisabled := false,
                     stopsInFlight := s.stopsInFlight - 1 }
      else s
  | .recPaused p =>
      { s with statusText := "Recording paused: " ++ p, badge := Color.yellow }
  | .recResumed p =>
      { s with statusText := "Recording resumed: " ++ p, badge := Color.blue }
  | .recError p =>
      { s with statusText := "Recording error: " ++ p }
  | .recFinished p =>
      { s with statusText := "Recording finished: " ++ p,
               recordShown := true, recordDisabled := false,
               stopShown := false, stopDisabled := false,
               badge := Color.red }
  | .allStopped p =>
      { s with statusText := "All processes stopped: " ++ p,
               recordShown := true, recordDisabled := false,
               stopShown := false, stopDisabled := false,
               badge := Color.red }
  | .sysIdle status => updateIdleUI status s
  | .pollResult outcome =>
      match outcome with
      | .ok status => updateIdleUI status s
      | .error _ => s

/-- Modelled from the spec: the initial control configuration comes from
the index page markup, which is not among the source files; the spec
lifecycle says the session is created with mode Stopped, so the record
button is shown and enabled, the stop button hidden, the badge unstyled,
and no backend call is in flight at process start. -/
def stInit : St :=
  { recordShown := true, recordDisabled := false,
    stopShown := false, stopDisabled := false,
    badge := Color.unstyled, statusText := "",
    startsInFlight := 0, stopsInFlight := 0 }

/-- A stopped-configuration state whose control fields are produced by
the all-processes-stopped handler itself, so concrete scenarios do not
depend on the markup-derived initial visibility. -/
def stoppedSt : St := step stInit (Ev.allStopped "session reset")

/-- A recording state reached through the machine: a Start click followed
by a successful backend confirmation. -/
def recSt : St :=
  step (step stoppedSt Ev.clickStart) (Ev.resolveStart (Except.ok "Recording started"))

/-- The state after a rapid sequence in which a Start is issued, an admin
all-processes-stopped event re-enables the controls while that Start is
still awaiting its backend reply, and the user issues a second Start: two
start commands are then in flight and the earlier one is superseded. -/
def supersededTrace : St :=
  step (step (step stoppedSt Ev.clickStart) (Ev.allStopped "admin stop")) Ev.clickStart

/-- The stopped control configuration: record button shown and enabled,
stop button hidden. The source infers the session mode from exactly this
configuration. -/
def stoppedControls (s : St) : Prop :=
  s.recordShown = true ∧ s.recordDisabled = false ∧ s.stopShown = false

/-- A timestamped idle or active reading. The timestamp records when the
sensor took the reading; the handlers in main.ts never receive or read
it, which is the point at issue in the delivery-order analysis. -/
structure ActivitySample where
  status : String
  timestamp : Nat
  deriving DecidableEq

/-- Delivery of a pushed sample: the system-idle-status listener forwards
only the status string to updateIdleUI (main.ts lines 554-563). -/
def deliverPush (a : ActivitySample) (s : St) : St := updateIdleUI a.status s

/-- Delivery of a polled sample: updateCachedIdleStatus forwards the
fetched cached status string to updateIdleUI (main.ts lines 522-529). -/
def deliverPoll (a : ActivitySample) (s : St) : St := updateIdleUI a.status s

/-- A user command: a click on the record button or on the stop button. -/
inductive Click where
  | start
  | stop
  deriving DecidableEq

/-- A user command as an orchestrator event. -/
def clickEv : Click → Ev
  | .start => Ev.clickStart
  | .stop => Ev.clickStop

/-- Run a sequence of user commands. -/
def runClicks (s : St) (cs : List Click) : St :=
  cs.foldl (fun t c => step t (clickEv c)) s

/-- The command c can actually be issued in state s: its button is shown
and enabled, and the opposite button is hidden. The two buttons are never
shown together in the source (every handler that shows one hides the
other), so the last conjunct holds in every reachable quiescent state. -/
def readyFor (s : St) : Click → Bool
  | .start => s.recordShown && !s.recordDisabled && !s.stopShown
  | .stop => s.stopShown && !s.stopDisabled && !s.recordShown

/-- Both buttons refuse clicks: each is hidden or disabled. -/
def locked (s : St) : Prop :=
  (s.recordShown = false ∨ s.recordDisabled = true) ∧
  (s.stopShown = false ∨ s.stopDisabled = true)

/-- Embeds the NetworkUsageComponent class of src/src/network-usage.ts.
The DOM element handles and the display update are omitted (display
only); the host timer registry is modelled by nextTimerId and
activeTimers so that duplicate timers are observable. Timer ids start at
one, matching the positive ids returned by the host, so the truthiness
test on intervalId in the source is the some-or-none test here. -/
structure NetworkUsageComponent where
  useGlobalNetwork : Bool
  intervalId : Option Nat
  nextTimerId : Nat
  activeTimers : List Nat
  deriving DecidableEq

/-- The constructor of NetworkUsageComponent: no interval registered. -/
def NetworkUsageComponent.mk0 (useGlobal : Bool) : NetworkUsageComponent :=
  { useGlobalNetwork := useGlobal, intervalId := none,
    nextTimerId := 1, activeTimers := [] }

/-- Embeds NetworkUsageComponent.start (network-usage.ts lines 43-50):
unconditionally registers a new interval timer and overwrites intervalId
with the new id; no check that a timer is already registered. -/
def NetworkUsageComponent.start (c : NetworkUsageComponent) : NetworkUsageComponent :=
  { c with intervalId := some c.nextTimerId,
           nextTimerId := c.nextTimerId + 1,
           activeTimers := c.nextTimerId :: c.activeTimers }

/-- Embeds NetworkUsageComponent.stop (network-usage.ts lines 52-58): if
intervalId is set, clear that timer and reset intervalId to null;
otherwise do nothing. -/
def NetworkUsageComponent.stop (c : NetworkUsageComponent) : NetworkUsageComponent :=
  match c.intervalId with
  | some i => { c with intervalId := none, activeTimers := c.activeTimers.erase i }
  | none => c

theorem locked_click (s : St) (c : Click) (h : locked s) : step s (clickEv c) = s := by
  obtain ⟨h1, h2⟩ := h
  cases c with
  | start =>
      rcases h1 with h1 | h1 <;> simp [clickEv, step, h1]
  | stop =>
      rcases h2 with h2 | h2 <;> simp [clickEv, step, h2]

theorem locked_runClicks (s : St) (cs : List Click) (h : locked s) :
    runClicks s cs = s := by
  induction cs with
  | nil => rfl
  | cons c cs ih =>
      show runClicks (step s (clickEv c)) cs = s
      rw [locked_click s c h]
      exact ih

/-- C1 counterexample. The claim says the sample with the larger
timestamp wins in either delivery order; in particular a polled active
at t=100 arriving after a pushed idle at t=150 should leave the badge
yellow (Idle). The code ignores timestamps: after the push of idle at
t=150 and then the poll of active at t=100, the badge is green (Active),
not yellow. -/
theorem activity_timestamp_claim_false :
    (deliverPoll ⟨"active", 100⟩ (deliverPush ⟨"idle", 150⟩ stoppedSt)).badge
      = Color.green ∧ Color.green ≠ Color.yellow := by
  decide

/-- C1 (amended): for every pair of activity samples, one pushed and one
polled, the activity applied after both are delivered is the sample
delivered last, in either delivery order; timestamps are never read, so
arrival order alone determines the final activity. -/
theorem activity_last_delivered_wins (s : St) (a b : ActivitySample) :
    (deliverPoll b (deliverPush a s)).badge
      = (if b.status = "active" then Color.green else Color.yellow) ∧
    (deliverPush a (deliverPoll b s)).badge
      = (if a.status = "active" then Color.green else Color.yellow) := by
  constructor <;> simp [deliverPush, deliverPoll, updateIdleUI] <;> split <;> simp

/-- C2: for every current state, whatever the control configuration,
badge, and pending in-flight commands, the all-processes-stopped handler
leaves the record button shown and enabled, the stop button hidden, and
the badge red. -/
theorem admin_override_forces_stopped (s : St) (p : String) :
    stoppedControls (step s (Ev.allStopped p)) ∧
    (step s (Ev.allStopped p)).badge = Color.red ∧
    (step s (Ev.allStopped p)).stopDisabled = false := by
  simp [step, stoppedControls]

/-- C9: updateIdleUI is total on status strings and has exactly two
outcomes: the string active paints the badge green, and every other
string, empty or malformed included, paints it yellow. -/
theorem idle_ui_two_outcomes (s : St) (status : String) :
    (updateIdleUI status s).badge
      = (if status = "active" then Color.green else Color.yellow) := by
  simp [updateIdleUI]
  split <;> simp

/-- C10: the recording-error handler changes only the status text; the
badge, both control visibilities and enabled flags, and the in-flight
counters are untouched, so a recording error never resets the controls
to the stopped configuration. -/
theorem recording_error_frame (s : St) (p : String) :
    (step s (Ev.recError p)).badge = s.badge ∧
    (step s (Ev.recError p)).recordShown = s.recordShown ∧
    (step s (Ev.recError p)).recordDisabled = s.recordDisabled ∧
    (step s (Ev.recError p)).stopShown = s.stopShown ∧
    (step s (Ev.recError p)).stopDisabled = s.stopDisabled ∧
    (step s (Ev.recError p)).startsInFlight = s.startsInFlight ∧
    (step s (Ev.recError p)).stopsInFlight = s.stopsInFlight ∧
    (step s (Ev.recError p)).statusText = "Recording error: " ++ p := by
  simp [step]

/-- C3: from any state where the stop control is shown and enabled (the
recording or paused configuration), a Stop command followed by the
backend stop resolution, successful or thrown, always leaves the record
button shown and enabled and the stop button hidden; when the call threw,
the error detail is shown as status text. -/
theorem stop_always_resolves_stopped (s : St) (outcome : Except String String)
    (h1 : s.stopShown = true) (h2 : s.stopDisabled = false) :
    stoppedControls (step (step s Ev.clickStop) (Ev.resolveStop outcome)) ∧
    ∀ msg, outcome = Except.error msg →
      (step (step s Ev.clickStop) (Ev.resolveStop outcome)).statusText
        = "Error: " ++ msg := by
  cases outcome with
  | ok r =>
      refine ⟨?_, ?_⟩
      · simp [step, stoppedControls, h1, h2]
      · intro msg hmsg
        cases hmsg
  | error msg0 =>
      refine ⟨?_, ?_⟩
      · simp [step, stoppedControls, h1, h2]
      · intro msg hmsg
        cases hmsg
        simp [step, h1, h2]

/-- Witness for C3 at the concrete recording state and a thrown backend
call. -/
theorem stop_always_resolves_stopped_witness :
    stoppedControls
      (step (step recSt Ev.clickStop) (Ev.resolveStop (Except.error "backend failure"))) ∧
    (step (step recSt Ev.clickStop)
        (Ev.resolveStop (Except.error "backend failure"))).statusText
      = "Error: " ++ "backend failure" := by
  have h := stop_always_resolves_stopped recSt (Except.error "backend failure")
    (by decide) (by decide)
  exact ⟨h.1, h.2 "backend failure" rfl⟩

/-- C5: from any state where the record control is shown and enabled, a
Start command whose backend call fails returns the machine to the stopped
configuration: record button shown and enabled, stop button hidden, and
the failure detail shown as error status text. -/
theorem failed_start_returns_stopped (s : St) (msg : String)
    (h1 : s.recordShown = true) (h2 : s.recordDisabled = false) :
    stoppedControls (step (step s Ev.clickStart) (Ev.resolveStart (Except.error msg))) ∧
    (step (step s Ev.clickStart) (Ev.resolveStart (Except.error msg))).statusText
      = "Error: " ++ msg := by
  constructor <;> simp [step, stoppedControls, h1, h2]

/-- Witness for C5 at the concrete stopped state. -/
theorem failed_start_returns_stopped_witness :
    stoppedControls
      (step (step stoppedSt Ev.clickStart) (Ev.resolveStart (Except.error "no backend"))) ∧
    (step (step stoppedSt Ev.clickStart)
        (Ev.resolveStart (Except.error "no backend"))).statusText
      = "Error: " ++ "no backend" :=
  failed_start_returns_stopped stoppedSt "no backend" (by decide) (by decide)

/-- C6: from a recording state (stop control shown, badge blue), the
recording-paused event turns the badge yellow, and a following
recording-resumed event turns it blue again; the stop control stays
visible through both transitions. -/
theorem pause_resume_cycle (s : St) (p1 p2 : String)
    (h1 : s.stopShown = true) (h2 : s.badge = Color.blue) :
    (step s (Ev.recPaused p1)).badge = Color.yellow ∧
    (step s (Ev.recPaused p1)).stopShown = true ∧
    (step (step s (Ev.recPaused p1)) (Ev.recResumed p2)).badge = Color.blue ∧
    (step (step s (Ev.recPaused p1)) (Ev.recResumed p2)).stopShown = true := by
  simp [step, h1]

/-- Witness for C6 at the concrete recording state. -/
theorem pause_resume_cycle_witness :
    (step recSt (Ev.recPaused "p")).badge = Color.yellow ∧
    (step recSt (Ev.recPaused "p")).stopShown = true ∧
    (step (step recSt (Ev.recPaused "p")) (Ev.recResumed "r")).badge = Color.blue ∧
    (step (step recSt (Ev.recPaused "p")) (Ev.recResumed "r")).stopShown = true :=
  pause_resume_cycle recSt "p" "r" (by decide) (by decide)

/-- C4 counterexample. The claim says a Stop command is always accepted
while a Start is pending, to unwind a stuck Start. In the code, after a
Start click the stop button is still hidden, so at the concrete pending
state a Stop command is rejected with no state change and no stop call is
issued: the state after the Stop click equals the pending-Start state and
the stop in-flight count stays zero. -/
theorem stop_during_pending_start_rejected :
    (step stoppedSt Ev.clickStart).startsInFlight = 1 ∧
    step (step stoppedSt Ev.clickStart) Ev.clickStop = step stoppedSt Ev.clickStart ∧
    (step (step stoppedSt Ev.clickStart) Ev.clickStop).stopsInFlight = 0 := by
  decide

/-- C4 (amended): while a user command issued from a quiescent state is
pending and no backend event has intervened, every later user command,
Start and Stop alike, is rejected with no state change until the pending
one resolves; in particular a Stop during a pending Start is rejected,
because the stop control is hidden while a Start is in flight, not always
accepted. -/
theorem pending_command_locks_out_clicks (s : St) (c : Click) (cs : List Click)
    (h : readyFor s c = true) :
    runClicks (step s (clickEv c)) cs = step s (clickEv c) := by
  apply locked_runClicks
  cases c with
  | start =>
      simp [readyFor] at h
      obtain ⟨⟨hs, hd⟩, hstop⟩ := h
      constructor
      · right
        simp [clickEv, step, hs, hd]
      · left
        simp [clickEv, step, hs, hd, hstop]
  | stop =>
      simp [readyFor] at h
      obtain ⟨⟨hs, hd⟩, hrec⟩ := h
      constructor
      · left
        simp [clickEv, step, hs, hd, hrec]
      · right
        simp [clickEv, step, hs, hd]

/-- Witness for the amended C4: from the concrete stopped state, after a
Start click the command sequence Stop then Start changes nothing. -/
theorem pending_command_locks_out_clicks_witness :
    runClicks (step stoppedSt (clickEv Click.start)) [Click.stop, Click.start]
      = step stoppedSt (clickEv Click.start) :=
  pending_command_locks_out_clicks stoppedSt Click.start [Click.stop, Click.start]
    (by decide)

/-- C7 counterexample. The claim says calling start on an already-started
poller is a no-op with no duplicate timer. In the code start registers a
new interval unconditionally: a second start call changes the component
and leaves two active timers, the first of them orphaned. -/
theorem poller_start_not_idempotent :
    NetworkUsageComponent.start (NetworkUsageComponent.start (NetworkUsageComponent.mk0 true))
      ≠ NetworkUsageComponent.start (NetworkUsageComponent.mk0 true) ∧
    (NetworkUsageComponent.start
        (NetworkUsageComponent.start (NetworkUsageComponent.mk0 true))).activeTimers.length
      = 2 := by
  decide

/-- C7 (amended): stopping the poller is idempotent, calling stop on an
already-stopped NetworkUsageComponent is a no-op; but starting is not:
every start call registers one more active timer, so repeated start calls
create duplicate timers. -/
theorem poller_stop_idempotent_start_not (c : NetworkUsageComponent) :
    NetworkUsageComponent.stop (NetworkUsageComponent.stop c)
      = NetworkUsageComponent.stop c ∧
    (NetworkUsageComponent.start c).activeTimers.length
      = c.activeTimers.length + 1 := by
  constructor
  · cases h : c.intervalId <;> simp [NetworkUsageComponent.stop, h]
  · simp [NetworkUsageComponent.start]

/-- C8 counterexample. The claim says a backend confirmation bearing an
older generation id than the most recently issued command is discarded
without affecting state. In the code commands carry no generation id: in
the concrete trace where a Start is issued, an admin all-processes-stopped
event re-enables the controls, and a second Start is issued, two start
commands are in flight; when the slow confirmation of the superseded
first Start arrives it is applied, not discarded, changing the state and
showing the stop control. -/
theorem stale_confirmation_applied :
    supersededTrace.startsInFlight = 2 ∧
    step supersededTrace (Ev.resolveStart (Except.ok "started")) ≠ supersededTrace ∧
    (step supersededTrace (Ev.resolveStart (Except.ok "started"))).stopShown = true := by
  decide

/-- C8 (amended): commands carry no generation id, and a backend start
confirmation is applied whenever any start command is in flight,
regardless of how many newer commands were issued in between: it sets the
status text to the backend result, paints the badge blue, hides the
record button and shows the stop button, decrementing the in-flight
count. A slow confirmation from a superseded command therefore applies
its transition. -/
theorem start_confirmation_always_applies (s : St) (r : String)
    (h : 0 < s.startsInFlight) :
    (step s (Ev.resolveStart (Except.ok r))).statusText = r ∧
    (step s (Ev.resolveStart (Except.ok r))).badge = Color.blue ∧
    (step s (Ev.resolveStart (Except.ok r))).recordShown = false ∧
    (step s (Ev.resolveStart (Except.ok r))).stopShown = true ∧
    (step s (Ev.resolveStart (Except.ok r))).startsInFlight = s.startsInFlight - 1 := by
  simp [step, h]

/-- Witness for the amended C8 at the concrete superseded trace. -/
theorem start_confirmation_always_applies_witness :
    (step supersededTrace (Ev.resolveStart (Except.ok "started"))).statusText = "started" ∧
    (step supersededTrace (Ev.resolveStart (Except.ok "started"))).badge = Color.blue ∧
    (step supersededTrace (Ev.resolveStart (Except.ok "started"))).recordShown = false ∧
    (step supersededTrace (Ev.resolveStart (Except.ok "started"))).stopShown = true ∧
    (step supersededTrace (Ev.resolveStart (Except.ok "started"))).startsInFlight
      = supersededTrace.startsInFlight - 1 :=
  start_confirmation_always_applies supersededTrace "started" (by decide)
